import Mathlib

/- Shallow embedding of the zkSync transaction-admission pipeline
   (core/bin/zksync_api/src/api_server/tx_sender.rs) and of the block-commit /
   proof-application pipeline (core/bin/zksync_core/src/committer.rs).

   Conventions of the embedding:
   - `BigDecimal` (exact decimal arithmetic) is embedded as `ℚ`;
   - `BigUint` amounts as `ℕ`, timestamps and durations as `ℤ`;
   - addresses, token ids, signatures and hashes as `ℕ`;
   - the external actors (fee ticker, signature verifier, core api client,
     storage) are parameters of the functions: each field of an environment
     record is the resolved answer of one request kind;
   - `async` control flow is sequenced with `Except SubmitError`. -/

/- ===== Fee scaling (tx_sender.rs, `scale_user_fee_up`, lines 775-802) ===== -/

/-- one cent: `BigDecimal::from_str("0.01")`. -/
def one_cent : ℚ := 1 / 100

/-- Embedding of `scale_user_fee_up` from tx_sender.rs: below one cent the fee
is doubled, otherwise the maximum of a five-percent scaling and a one-cent
increment is taken. -/
def scale_user_fee_up (provided_total_usd_fee : ℚ) : ℚ :=
  if provided_total_usd_fee < one_cent then
    provided_total_usd_fee * 2
  else
    max (provided_total_usd_fee * 105 / 100) (provided_total_usd_fee + one_cent)

/- ===== Transaction data model ===== -/

/-- Fee kinds carried by `TxFeeTypes` (zksync_types); for the admission logic
only being (or not being) `ChangePubKey` matters. -/
inductive TxFeeTypes
  | Withdraw
  | FastWithdraw
  | Transfer
  | ChangePubKey
  deriving DecidableEq

structure TransferData where
  token : Nat
  dest : Nat
  fee : Nat
  deriving DecidableEq

structure WithdrawData where
  token : Nat
  dest : Nat
  fee : Nat
  fast : Bool
  deriving DecidableEq

structure ForcedExitData where
  target : Nat
  token : Nat
  fee : Nat
  deriving DecidableEq

structure ChangePubKeyData where
  account : Nat
  feeToken : Nat
  fee : Nat
  deriving DecidableEq

structure CloseData where
  account : Nat
  deriving DecidableEq

/-- Embedding of the `ZkSyncTx` tagged union (spec section 3): the operation
kinds the admission pipeline distinguishes. -/
inductive ZkSyncTx
  | Transfer (t : TransferData)
  | Withdraw (w : WithdrawData)
  | ForcedExit (f : ForcedExitData)
  | ChangePubKey (c : ChangePubKeyData)
  | Close (c : CloseData)
  deriving DecidableEq

/-- Modelled from the spec: the `is_close` capability predicate of `ZkSyncTx`
(defined in zksync_types, outside src/); true exactly for the Close variant. -/
def ZkSyncTx.is_close : ZkSyncTx → Bool
  | .Close _ => true
  | _ => false

/-- Modelled from the spec: the `is_withdraw` capability predicate of
`ZkSyncTx` (defined in zksync_types, outside src/); the spec allows fast
processing only for Withdraw transactions. -/
def ZkSyncTx.is_withdraw : ZkSyncTx → Bool
  | .Withdraw _ => true
  | _ => false

/-- Modelled from the spec: `get_fee_info` (zksync_types). Every fee-carrying
variant yields its (fee type, fee token, address, declared fee); Close carries
no fee semantics. -/
def ZkSyncTx.get_fee_info : ZkSyncTx → Option (TxFeeTypes × Nat × Nat × Nat)
  | .Transfer t => some (.Transfer, t.token, t.dest, t.fee)
  | .Withdraw w => some ((if w.fast then .FastWithdraw else .Withdraw), w.token, w.dest, w.fee)
  | .ForcedExit f => some (.Withdraw, f.token, f.target, f.fee)
  | .ChangePubKey c => some (.ChangePubKey, c.feeToken, c.account, c.fee)
  | .Close _ => none

/- ===== Error surface (tx_sender.rs, `SubmitError` / `TxAddError`) ===== -/

/-- Embedding of the `TxAddError` variants reached by the admission pipeline. -/
inductive TxAddError
  | TxFeeTooLow
  | TxBatchFeeTooLow
  | MissingEthSignature
  | Other (code : Nat)
  deriving DecidableEq

/-- Embedding of `SubmitError` from tx_sender.rs. -/
inductive SubmitError
  | AccountCloseDisabled
  | InvalidParams (msg : String)
  | UnsupportedFastProcessing
  | IncorrectTx (msg : String)
  | TxAdd (e : TxAddError)
  | InappropriateFeeToken
  | CommunicationCoreServer (msg : String)
  | Internal
  | Other (msg : String)
  deriving DecidableEq

/- ===== submit_tx (tx_sender.rs, lines 140-221) ===== -/

/-- Environment of one `submit_tx` call: the resolved answers of the external
collaborators (fee ticker, storage, signature verifier, core api client). -/
structure SubmitEnv where
  /-- Ticker `IsTokenAllowed` answer per fee-token id. -/
  tokenAllowed : Nat → Bool
  /-- Ticker `GetTxFee` answer: `total_fee` per (fee type, address, token). -/
  requiredFee : TxFeeTypes → Nat → Nat → Nat
  /-- Storage `account_created_on` answer per address. -/
  accountCreatedAt : Nat → Option Int
  /-- The value of `Utc::now()` during the call. -/
  now : Int
  forcedExitMinimumAccountAge : Int
  enforcePubkeyChangeFee : Bool
  /-- Outcome of the signature-verification stage (`glm_verify_tx_info`)
  for a given transaction and caller signature. -/
  verify : ZkSyncTx → Option Nat → Except SubmitError Unit
  /-- Outcome of `core_api_client.send_tx`, already mapped onto `SubmitError`. -/
  send : ZkSyncTx → Except SubmitError Unit

/-- Embedding of `check_forced_exit` (tx_sender.rs lines 363-395). The
hour-formatted text of the age message is elided. -/
def check_forced_exit (env : SubmitEnv) (forced_exit : ForcedExitData) :
    Except SubmitError Unit :=
  match env.accountCreatedAt forced_exit.target with
  | some age =>
      if env.now - age < env.forcedExitMinimumAccountAge then
        .error (.InvalidParams "Target account exists less than required minimum amount")
      else .ok ()
  | none => .error (.InvalidParams "Target account does not exist")

/-- Embedding of the fee-enforcement block of `submit_tx`
(tx_sender.rs lines 173-209), applied to the (already fast-flag-updated)
transaction. -/
def submit_tx_fee_check (env : SubmitEnv) (tx : ZkSyncTx) : Except SubmitError Unit :=
  match tx.get_fee_info with
  | some (tx_type, token, address, provided_fee) =>
      let should_enforce_fee :=
        (!(tx_type == TxFeeTypes.ChangePubKey)) || env.enforcePubkeyChangeFee
      let fee_allowed := env.tokenAllowed token
      if !fee_allowed then .error .InappropriateFeeToken
      else
        let required_fee : ℚ := (env.requiredFee tx_type address token : ℚ)
        let scaled_provided_fee := scale_user_fee_up (provided_fee : ℚ)
        if required_fee ≥ scaled_provided_fee ∧ should_enforce_fee = true then
          .error (.TxAdd .TxFeeTooLow)
        else .ok ()
  | none => .ok ()

/-- The tail of `submit_tx`: signature verification then the forward to the
core api client; the returned value models `tx.hash()` by the (content
addressed) transaction itself. -/
def submit_tx_verify_send (env : SubmitEnv) (tx : ZkSyncTx) (signature : Option Nat) :
    Except SubmitError ZkSyncTx :=
  (env.verify tx signature).bind fun _ => (env.send tx).bind fun _ => .ok tx

/-- Embedding of `submit_tx` after the close and forced-exit checks: the
fast-processing check, the Withdraw fast-flag handling (rejection of a
caller-set flag, then the server-side overwrite), the fee enforcement block,
and the verification / forward stage. -/
def submit_tx_after_age (env : SubmitEnv) (tx : ZkSyncTx) (signature : Option Nat)
    (fast_processing : Option Bool) : Except SubmitError ZkSyncTx :=
  let fast := fast_processing.getD false
  if fast && !tx.is_withdraw then .error .UnsupportedFastProcessing
  else
    ((match tx with
      | .Withdraw w =>
          if w.fast then
            .error (.IncorrectTx "fast field of Withdraw transaction must not be set manually")
          else .ok (ZkSyncTx.Withdraw { w with fast := fast })
      | t => .ok t : Except SubmitError ZkSyncTx)).bind fun tx =>
    (submit_tx_fee_check env tx).bind fun _ =>
    submit_tx_verify_send env tx signature

/-- Embedding of `submit_tx` (tx_sender.rs lines 140-221). -/
def submit_tx (env : SubmitEnv) (tx : ZkSyncTx) (signature : Option Nat)
    (fast_processing : Option Bool) : Except SubmitError ZkSyncTx :=
  if tx.is_close then .error .AccountCloseDisabled
  else
    (match tx with
      | .ForcedExit f => check_forced_exit env f
      | _ => .ok ()).bind fun _ =>
    submit_tx_after_age env tx signature fast_processing

/- ===== Claim C1 ===== -/

/-- C1: `scale_user_fee_up` is the pure piecewise function: for every declared
fee `d < 0.01` it returns `2 * d`, for every `d ≥ 0.01` it returns
`max (1.05 * d) (d + 0.01)`; in particular `0.005 ↦ 0.01`, `0.015 ↦ 0.025`
and `0.30 ↦ 0.315`. -/
theorem C1_scale_user_fee_up_piecewise (d : ℚ) :
    (d < 1 / 100 → scale_user_fee_up d = 2 * d) ∧
    (1 / 100 ≤ d → scale_user_fee_up d = max (105 / 100 * d) (d + 1 / 100)) ∧
    scale_user_fee_up (5 / 1000) = 1 / 100 ∧
    scale_user_fee_up (15 / 1000) = 25 / 1000 ∧
    scale_user_fee_up (30 / 100) = 315 / 1000 := by
  refine ⟨fun h => ?_, fun h => ?_, ?_, ?_, ?_⟩
  · rw [scale_user_fee_up, if_pos (by simpa [one_cent] using h)]
    ring
  · rw [scale_user_fee_up, if_neg (by simp [one_cent]; linarith)]
    rw [show d * 105 / 100 = 105 / 100 * d by ring, one_cent]
  · norm_num [scale_user_fee_up, one_cent]
  · norm_num [scale_user_fee_up, one_cent, max_def]
  · norm_num [scale_user_fee_up, one_cent, max_def]

/-- Witness for C1 at concrete inputs on both branches. -/
theorem C1_witness :
    scale_user_fee_up (1 / 200) = 2 * (1 / 200) ∧
    scale_user_fee_up (3 / 10) = max (105 / 100 * (3 / 10)) (3 / 10 + 1 / 100) := by
  exact ⟨(C1_scale_user_fee_up_piecewise (1 / 200)).1 (by norm_num),
    ((C1_scale_user_fee_up_piecewise (3 / 10)).2.1 (by norm_num))⟩

/- ===== submit_txs_batch (tx_sender.rs, lines 223-339) ===== -/

/-- Environment of one `submit_txs_batch` call. -/
structure BatchEnv where
  /-- Ticker `IsTokenAllowed` answer per fee-token id. -/
  tokenAllowed : Nat → Bool
  /-- Ticker `GetTokenPrice` (USDForOneWei) answer per token id; token 0 is
  the ETH token (`TokenLike::Id(TokenId(0))`). -/
  tokenPriceUSD : Nat → ℚ
  /-- Ticker `GetBatchTxFee` answer (`total_fee`, in the ETH token) for a
  list of (fee type, address) pairs. -/
  batchRequiredFee : List (TxFeeTypes × Nat) → Nat
  /-- Outcome of the verification stage plus `send_txs_batch`, returning the
  member hashes (modelled by the member transactions). -/
  verifySend : List (ZkSyncTx × Option Nat) → Option Nat → Except SubmitError (List ZkSyncTx)

/-- Embedding of the fee-accumulation `for` loop of `submit_txs_batch`
(tx_sender.rs lines 240-279): members with a zero declared fee are skipped
before any ticker query; otherwise the fee token must be ticker-approved, the
(fee type, address) pair is collected, and the USD value of the declared fee
is accumulated. -/
def batch_fee_loop (env : BatchEnv) :
    List ZkSyncTx → ℚ → List (TxFeeTypes × Nat) →
    Except SubmitError (ℚ × List (TxFeeTypes × Nat))
  | [], provided_total_usd_fee, transaction_types =>
      .ok (provided_total_usd_fee, transaction_types)
  | tx :: rest, provided_total_usd_fee, transaction_types =>
      match tx.get_fee_info with
      | none => batch_fee_loop env rest provided_total_usd_fee transaction_types
      | some (tx_type, token, address, provided_fee) =>
          if provided_fee = 0 then
            batch_fee_loop env rest provided_total_usd_fee transaction_types
          else
            let fee_allowed := env.tokenAllowed token
            let transaction_types := transaction_types ++ [(tx_type, address)]
            if !fee_allowed && (provided_fee != 0) then .error .InappropriateFeeToken
            else
              let check_token := if fee_allowed then token else 0
              let token_price_in_usd := env.tokenPriceUSD check_token
              batch_fee_loop env rest
                (provided_total_usd_fee + (provided_fee : ℚ) * token_price_in_usd)
                transaction_types

/-- Embedding of `submit_txs_batch` (tx_sender.rs lines 223-339). The
source-level `debug_assert!(txs.is_empty(), ..)` is a release-build no-op,
and an empty input satisfies the asserted condition even in debug builds, so
it adds no rejection on the paths modelled here. -/
def submit_txs_batch (env : BatchEnv) (txs : List (ZkSyncTx × Option Nat))
    (eth_signature : Option Nat) : Except SubmitError (List ZkSyncTx) :=
  if txs.any (fun tx => tx.1.is_close) then .error .AccountCloseDisabled
  else
    (batch_fee_loop env (txs.map Prod.fst) 0 []).bind fun res =>
    let required_eth_fee : ℚ := (env.batchRequiredFee res.2 : ℚ)
    let eth_price_in_usd := env.tokenPriceUSD 0
    let required_total_usd_fee := required_eth_fee * eth_price_in_usd
    let scaled_provided_fee_in_usd := scale_user_fee_up res.1
    if required_total_usd_fee ≥ scaled_provided_fee_in_usd then
      .error (.TxAdd .TxBatchFeeTooLow)
    else env.verifySend txs eth_signature

/- ===== Golem legacy-token fallback (tx_sender.rs, lines 513-670) ===== -/

/-- Token identity resolved through the token cache: symbol and decimals. -/
structure GToken where
  symbol : String
  decimals : Nat
  deriving DecidableEq

/-- Embedding of `glm_verify_tx_info` (tx_sender.rs lines 590-637) for a
Transfer or Withdraw transaction (the variants whose sign message is present).
`sign_message s d` models `tx.get_ethereum_sign_message(s, d)` of the fixed
transaction; `verify m` models the resolved outcome of
`verify_tx_info_message_signature` with message `m` (transaction and caller
signature fixed). -/
def glm_verify_tx_info (token : GToken) (sign_message : String → Nat → List Nat)
    (verify : List Nat → Except SubmitError Unit) : Except SubmitError Unit :=
  match verify (sign_message token.symbol token.decimals) with
  | .ok r => .ok r
  | .error err =>
      if token.symbol = "GNT" then
        verify (sign_message "tGLM" token.decimals)
      else .error err

/-- Embedding of `glm_verify_txs_batch_info` (tx_sender.rs lines 639-670):
`batch_token` is the first member token resolved by
`glm_txs_batch_message_to_sign`, `live_messages` the per-member live sign
messages, `force_messages d` the fixed tGLM messages at `d` decimals, and
`verify` the resolved outcome of `verify_txs_batch_signature` per message
list. -/
def glm_verify_txs_batch_info (batch_token : Option GToken)
    (live_messages : List (Option (List Nat)))
    (force_messages : Nat → List (Option (List Nat)))
    (verify : List (Option (List Nat)) → Except SubmitError Unit) :
    Except SubmitError Unit :=
  match verify live_messages, batch_token with
  | .ok r, _ => .ok r
  | .error err, some token =>
      if token.symbol = "GNT" then verify (force_messages token.decimals)
      else .error err
  | .error err, none => .error err

/- ===== Block commit (committer.rs, `commit_block`, lines 119-209) ===== -/

inductive ActionRec
  | Commit
  | Verify (proof : Nat)
  deriving DecidableEq

/-- Durable `Operation` record (the storage-assigned id is elided). -/
structure OperationRec where
  action : ActionRec
  blockNumber : Nat
  deriving DecidableEq

/-- Executed transaction inside a block: what `commit_block` inspects
(`get_executed_tx`, `success`, `is_withdraw`, `hash`). -/
structure ExecutedTxRec where
  txHash : Nat
  success : Bool
  isWithdrawTx : Bool
  deriving DecidableEq

/-- Embedding of `ExecutedOperations` (spec section 3): a (successful or
failed) transaction execution or a priority operation. -/
inductive ExecutedOp
  | Tx (t : ExecutedTxRec)
  | PriorityOp (serialId : Nat)
  deriving DecidableEq

structure BlockRec where
  blockNumber : Nat
  blockTransactions : List ExecutedOp
  deriving DecidableEq

structure AppliedUpdatesReq where
  accountUpdates : List Nat
  firstUpdateOrderId : Nat
  deriving DecidableEq

/-- One durable `commit_state_update` record. -/
structure StateUpdateRec where
  blockNumber : Nat
  firstUpdateOrderId : Nat
  updates : List Nat
  deriving DecidableEq

/-- Durable storage state touched by `commit_block`: the pending-withdrawals
table, the account-update history and the operations table. -/
structure DBState where
  pendingWithdrawals : List Nat
  stateUpdates : List StateUpdateRec
  operations : List OperationRec
  deriving DecidableEq

/-- Effect on storage of one `add_pending_withdrawal` call. -/
def pendingWithdrawalStep (txHash : Nat) (db : DBState) : DBState :=
  { db with pendingWithdrawals := db.pendingWithdrawals ++ [txHash] }

/-- Effect on storage of the `commit_state_update` call. -/
def stateUpdateStep (block : BlockRec) (upd : AppliedUpdatesReq) (db : DBState) : DBState :=
  { db with stateUpdates := db.stateUpdates ++
      [⟨block.blockNumber, upd.firstUpdateOrderId, upd.accountUpdates⟩] }

/-- Effect on storage of the `execute_operation` call with the Commit action. -/
def commitOpStep (block : BlockRec) (db : DBState) : DBState :=
  { db with operations := db.operations ++ [⟨ActionRec.Commit, block.blockNumber⟩] }

/-- The storage writes `commit_block` issues inside its transaction, in source
order: one `add_pending_withdrawal` per successful withdraw execution, then
`commit_state_update`, then `execute_operation` with the Commit action. The
metrics histogram and the (best-effort, non-storage) mempool notification
touch no durable state. -/
def commit_block_steps (block : BlockRec) (upd : AppliedUpdatesReq) :
    List (DBState → DBState) :=
  (block.blockTransactions.filterMap fun op =>
    (match op with
    | .Tx t =>
        if t.success && t.isWithdrawTx then some (pendingWithdrawalStep t.txHash)
        else none
    | .PriorityOp _ => none : Option (DBState → DBState)))
  ++ [stateUpdateStep block upd, commitOpStep block]

/-- Applies the writes of a storage transaction to the transaction-local view,
failing (and hence aborting) if the write with index `failAt` fails; `i` is
the index of the first write of `steps`. This is the transactional storage
contract of spec sections 4.2 and 6. -/
def applyStepsAux : List (DBState → DBState) → Nat → Option Nat → DBState → Option DBState
  | [], _, _, txn => some txn
  | s :: rest, i, failAt, txn =>
      if failAt = some i then none
      else applyStepsAux rest (i + 1) failAt (s txn)

/-- Runs a storage transaction made of `steps` against the durable state `db`:
the writes mutate only the transaction-local view, and the final
`transaction.commit()` (the storage call with index `steps.length`) publishes
it; any failure aborts the transaction, leaving `db` untouched. -/
def runTransaction (db : DBState) (steps : List (DBState → DBState))
    (failAt : Option Nat) : DBState :=
  match applyStepsAux steps 0 failAt db with
  | none => db
  | some txn => if failAt = some steps.length then db else txn

/-- The durable state visible after `commit_block` ran against `db`, with a
storage failure injected at the call with index `failAt` (none: no failure). -/
def commit_block_run (db : DBState) (block : BlockRec) (upd : AppliedUpdatesReq)
    (failAt : Option Nat) : DBState :=
  runTransaction db (commit_block_steps block upd) failAt

/-- The failure-free outcome of `commit_block`. -/
def commit_block_pure (db : DBState) (block : BlockRec) (upd : AppliedUpdatesReq) : DBState :=
  (commit_block_steps block upd).foldl (fun d s => s d) db

/-- Hashes of the successful withdraw executions of a block, in block order. -/
def successfulWithdrawHashes (block : BlockRec) : List Nat :=
  block.blockTransactions.filterMap fun op =>
    match op with
    | .Tx t => if t.success && t.isWithdrawTx then some t.txHash else none
    | .PriorityOp _ => none

/- ===== Proof application (committer.rs, `poll_for_new_proofs_task`) ===== -/

/-- Embedding of the inner loop of `poll_for_new_proofs_task` (committer.rs
lines 234-273): as long as storage holds a proof for `last + 1`, a Verify
operation for that block is executed and the in-memory counter advances; the
first missing proof breaks the loop. `fuel` bounds the recursion; since every
iteration consumes a distinct member of `proofs`, any `fuel ≥ proofs.length`
reaches the natural break. -/
def applyProofs : Nat → List Nat → Nat → List Nat → Nat × List Nat
  | 0, _, last_verified_block, verified_ops => (last_verified_block, verified_ops)
  | Nat.succ fuel, proofs, last_verified_block, verified_ops =>
      if (last_verified_block + 1) ∈ proofs then
        applyProofs fuel proofs (last_verified_block + 1)
          (verified_ops ++ [last_verified_block + 1])
      else (last_verified_block, verified_ops)

/-- One timer tick of `poll_for_new_proofs_task` against a fixed proof store:
runs the inner loop from the current last-verified counter, extending the list
of blocks that received a Verify operation. -/
def proofTick (proofs : List Nat) (st : Nat × List Nat) : Nat × List Nat :=
  applyProofs (proofs.length + 1) proofs st.1 st.2

/- ===== Helper lemmas on the submit_tx stages ===== -/

/-- Server-side overwrite of the Withdraw fast flag
(`withdraw.fast = fast_processing` in `submit_tx`). -/
def set_fast (tx : ZkSyncTx) (fast : Bool) : ZkSyncTx :=
  match tx with
  | .Withdraw w => .Withdraw { w with fast := fast }
  | t => t

theorem submit_tx_stage_eq (env : SubmitEnv) (tx : ZkSyncTx) (sig : Option Nat)
    (fp : Option Bool)
    (hclose : tx.is_close = false)
    (hfe : ∀ f, tx = .ForcedExit f → check_forced_exit env f = .ok ())
    (hfast : (fp.getD false && !tx.is_withdraw) = false)
    (hwfast : ∀ w, tx = .Withdraw w → w.fast = false) :
    submit_tx env tx sig fp =
      (submit_tx_fee_check env (set_fast tx (fp.getD false))).bind fun _ =>
        submit_tx_verify_send env (set_fast tx (fp.getD false)) sig := by
  cases tx with
  | Transfer t =>
      simp only [ZkSyncTx.is_withdraw, Bool.not_false, Bool.and_true] at hfast
      simp [submit_tx, submit_tx_after_age, set_fast, ZkSyncTx.is_close,
        ZkSyncTx.is_withdraw, hfast, Except.bind]
  | Withdraw w =>
      have hw := hwfast w rfl
      simp [submit_tx, submit_tx_after_age, set_fast, ZkSyncTx.is_close,
        ZkSyncTx.is_withdraw, hw, Except.bind]
  | ForcedExit f =>
      have := hfe f rfl
      simp only [ZkSyncTx.is_withdraw, Bool.not_false, Bool.and_true] at hfast
      simp [submit_tx, submit_tx_after_age, set_fast, ZkSyncTx.is_close,
        ZkSyncTx.is_withdraw, hfast, this, Except.bind]
  | ChangePubKey c =>
      simp only [ZkSyncTx.is_withdraw, Bool.not_false, Bool.and_true] at hfast
      simp [submit_tx, submit_tx_after_age, set_fast, ZkSyncTx.is_close,
        ZkSyncTx.is_withdraw, hfast, Except.bind]
  | Close c => simp [ZkSyncTx.is_close] at hclose

theorem submit_tx_fee_check_eq (env : SubmitEnv) (tx : ZkSyncTx)
    (tx_type : TxFeeTypes) (token address provided_fee : Nat)
    (hinfo : tx.get_fee_info = some (tx_type, token, address, provided_fee))
    (hallowed : env.tokenAllowed token = true) :
    submit_tx_fee_check env tx =
      if (env.requiredFee tx_type address token : ℚ) ≥ scale_user_fee_up (provided_fee : ℚ)
          ∧ ((!(tx_type == TxFeeTypes.ChangePubKey)) || env.enforcePubkeyChangeFee) = true then
        .error (.TxAdd .TxFeeTooLow)
      else .ok () := by
  rw [submit_tx_fee_check, hinfo]
  simp [hallowed]

theorem submit_tx_verify_send_ok (env : SubmitEnv) (tx : ZkSyncTx) (sig : Option Nat)
    (out : ZkSyncTx) (h : submit_tx_verify_send env tx sig = .ok out) : out = tx := by
  rw [submit_tx_verify_send] at h
  cases hv : env.verify tx sig with
  | error e => rw [hv] at h; simp [Except.bind] at h
  | ok r =>
      rw [hv] at h
      cases hs : env.send tx with
      | error e => rw [hs] at h; simp [Except.bind] at h
      | ok r2 => rw [hs] at h; simp [Except.bind] at h; exact h.symm

/- ===== Claim C2 ===== -/

/-- C2: in `submit_tx`, for a transaction that passes the preceding checks,
carries fee semantics and whose fee token is ticker-approved, the call is
rejected with the fee-too-low error exactly when
`required_fee ≥ scale_user_fee_up declared_fee` and fee enforcement is not
skipped, enforcement being skipped precisely for ChangePubKey transactions
with the enforce-pubkey-change-fee flag off; otherwise the fee check passes
and the pipeline proceeds to verification and the downstream forward. -/
theorem C2_submit_tx_fee_enforcement (env : SubmitEnv) (tx : ZkSyncTx)
    (sig : Option Nat) (fp : Option Bool)
    (tx_type : TxFeeTypes) (token address provided_fee : Nat)
    (hclose : tx.is_close = false)
    (hfe : ∀ f, tx = .ForcedExit f → check_forced_exit env f = .ok ())
    (hfast : (fp.getD false && !tx.is_withdraw) = false)
    (hwfast : ∀ w, tx = .Withdraw w → w.fast = false)
    (hinfo : (set_fast tx (fp.getD false)).get_fee_info
        = some (tx_type, token, address, provided_fee))
    (hallowed : env.tokenAllowed token = true) :
    submit_tx env tx sig fp =
      if (env.requiredFee tx_type address token : ℚ) ≥ scale_user_fee_up (provided_fee : ℚ)
          ∧ ((!(tx_type == TxFeeTypes.ChangePubKey)) || env.enforcePubkeyChangeFee) = true then
        .error (.TxAdd .TxFeeTooLow)
      else submit_tx_verify_send env (set_fast tx (fp.getD false)) sig := by
  rw [submit_tx_stage_eq env tx sig fp hclose hfe hfast hwfast,
    submit_tx_fee_check_eq env _ tx_type token address provided_fee hinfo hallowed]
  split <;> simp [Except.bind]

/-- Witness for C2: a concrete Transfer whose required fee (5) is at least the
scaled declared fee (3.15) is rejected as fee-too-low. -/
theorem C2_witness :
    submit_tx
      { tokenAllowed := fun _ => true, requiredFee := fun _ _ _ => 5,
        accountCreatedAt := fun _ => some 0, now := 1000,
        forcedExitMinimumAccountAge := 100, enforcePubkeyChangeFee := true,
        verify := fun _ _ => .ok (), send := fun _ => .ok () }
      (.Transfer ⟨1, 2, 3⟩) none none = .error (.TxAdd .TxFeeTooLow) := by
  rw [C2_submit_tx_fee_enforcement _ (.Transfer ⟨1, 2, 3⟩) none none
    .Transfer 1 2 3 rfl (fun f hf => by cases hf) rfl (fun w hw => by cases hw) rfl rfl]
  rw [if_pos]
  constructor
  · norm_num [scale_user_fee_up, one_cent, max_def]
  · rfl

/- ===== Claim C8 ===== -/

/-- C8: for every ForcedExit transaction, `submit_tx` rejects with an
invalid-params error when the target account does not exist in storage,
rejects when `now` minus the account creation timestamp is strictly below the
configured minimum account age, and proceeds past the age check when the age
is at or beyond the threshold. -/
theorem C8_forced_exit_age_check (env : SubmitEnv) (f : ForcedExitData)
    (sig : Option Nat) (fp : Option Bool) :
    (env.accountCreatedAt f.target = none →
      submit_tx env (.ForcedExit f) sig fp =
        .error (.InvalidParams "Target account does not exist")) ∧
    (∀ created, env.accountCreatedAt f.target = some created →
      env.now - created < env.forcedExitMinimumAccountAge →
      submit_tx env (.ForcedExit f) sig fp =
        .error (.InvalidParams "Target account exists less than required minimum amount")) ∧
    (∀ created, env.accountCreatedAt f.target = some created →
      env.forcedExitMinimumAccountAge ≤ env.now - created →
      submit_tx env (.ForcedExit f) sig fp =
        submit_tx_after_age env (.ForcedExit f) sig fp) := by
  refine ⟨fun h => ?_, fun created h hlt => ?_, fun created h hle => ?_⟩
  · simp [submit_tx, ZkSyncTx.is_close, check_forced_exit, h, Except.bind]
  · simp [submit_tx, ZkSyncTx.is_close, check_forced_exit, h, hlt, Except.bind]
  · simp [submit_tx, ZkSyncTx.is_close, check_forced_exit, h, not_lt.mpr hle, Except.bind]

/-- Witness for C8: with creation timestamp 0, now 1000 and minimum age 100
the age check passes and the pipeline proceeds. -/
theorem C8_witness :
    submit_tx
      { tokenAllowed := fun _ => true, requiredFee := fun _ _ _ => 0,
        accountCreatedAt := fun _ => some 0, now := 1000,
        forcedExitMinimumAccountAge := 100, enforcePubkeyChangeFee := true,
        verify := fun _ _ => .ok (), send := fun _ => .ok () }
      (.ForcedExit ⟨9, 1, 3⟩) none none =
      submit_tx_after_age
        { tokenAllowed := fun _ => true, requiredFee := fun _ _ _ => 0,
          accountCreatedAt := fun _ => some 0, now := 1000,
          forcedExitMinimumAccountAge := 100, enforcePubkeyChangeFee := true,
          verify := fun _ _ => .ok (), send := fun _ => .ok () }
        (.ForcedExit ⟨9, 1, 3⟩) none none := by
  exact (C8_forced_exit_age_check _ ⟨9, 1, 3⟩ none none).2.2 0 rfl (by norm_num)

/- ===== Claim C9 ===== -/

/-- C9 counterexample: the claim says `submit_tx` with `fast_processing = true`
rejects every non-Withdraw transaction with the unsupported-fast-processing
error, but an account-close transaction (which is not a Withdraw) is rejected
earlier with the account-close-disabled error instead. -/
theorem C9_counterexample :
    submit_tx
      { tokenAllowed := fun _ => true, requiredFee := fun _ _ _ => 0,
        accountCreatedAt := fun _ => some 0, now := 1000,
        forcedExitMinimumAccountAge := 100, enforcePubkeyChangeFee := true,
        verify := fun _ _ => .ok (), send := fun _ => .ok () }
      (.Close ⟨0⟩) none (some true) = .error .AccountCloseDisabled ∧
    SubmitError.AccountCloseDisabled ≠ SubmitError.UnsupportedFastProcessing := by
  exact ⟨rfl, by decide⟩

/-- C9 (amended): `submit_tx` with `fast_processing = true` rejects with the
unsupported-fast-processing error every non-Withdraw transaction that passes
the preceding checks (it is not an account-close transaction and, for a
ForcedExit, the target-age check passes); `fast_processing` absent behaves as
false; every Withdraw whose own fast flag was pre-set by the caller is
rejected with an incorrect-transaction error regardless of the parameter; and
an accepted Withdraw has its fast flag overwritten from the request
parameter. -/
theorem C9_fast_processing_amended :
    (∀ (env : SubmitEnv) (tx : ZkSyncTx) (sig : Option Nat),
      tx.is_close = false →
      (∀ f, tx = .ForcedExit f → check_forced_exit env f = .ok ()) →
      tx.is_withdraw = false →
      submit_tx env tx sig (some true) = .error .UnsupportedFastProcessing) ∧
    (∀ (env : SubmitEnv) (w : WithdrawData) (sig : Option Nat) (fp : Option Bool),
      w.fast = true →
      submit_tx env (.Withdraw w) sig fp =
        .error (.IncorrectTx "fast field of Withdraw transaction must not be set manually")) ∧
    (∀ (env : SubmitEnv) (w : WithdrawData) (sig : Option Nat) (fp : Option Bool)
        (out : ZkSyncTx),
      submit_tx env (.Withdraw w) sig fp = .ok out →
      out = .Withdraw { w with fast := fp.getD false }) ∧
    (∀ (env : SubmitEnv) (tx : ZkSyncTx) (sig : Option Nat),
      submit_tx env tx sig none = submit_tx env tx sig (some false)) := by
  refine ⟨fun env tx sig hclose hfe hisw => ?_, fun env w sig fp hw => ?_,
    fun env w sig fp out h => ?_, fun env tx sig => rfl⟩
  · cases tx with
    | Transfer t =>
        simp [submit_tx, submit_tx_after_age, ZkSyncTx.is_close, ZkSyncTx.is_withdraw,
          Except.bind]
    | Withdraw w => simp [ZkSyncTx.is_withdraw] at hisw
    | ForcedExit f =>
        simp [submit_tx, submit_tx_after_age, ZkSyncTx.is_close, ZkSyncTx.is_withdraw,
          hfe f rfl, Except.bind]
    | ChangePubKey c =>
        simp [submit_tx, submit_tx_after_age, ZkSyncTx.is_close, ZkSyncTx.is_withdraw,
          Except.bind]
    | Close c => simp [ZkSyncTx.is_close] at hclose
  · simp [submit_tx, submit_tx_after_age, ZkSyncTx.is_close, ZkSyncTx.is_withdraw,
      hw, Except.bind]
  · by_cases hw : w.fast
    · simp [submit_tx, submit_tx_after_age, ZkSyncTx.is_close, ZkSyncTx.is_withdraw,
        hw, Except.bind] at h
    · rw [submit_tx_stage_eq env (.Withdraw w) sig fp rfl (fun f hf => by cases hf)
        (by simp [ZkSyncTx.is_withdraw]) (fun w2 hw2 => by cases hw2; simpa using hw)] at h
      cases hfc : submit_tx_fee_check env (set_fast (.Withdraw w) (fp.getD false)) with
      | error e => rw [hfc] at h; simp [Except.bind] at h
      | ok r =>
          rw [hfc] at h
          simp only [Except.bind] at h
          have := submit_tx_verify_send_ok env _ sig out h
          simpa [set_fast] using this

/-- Witness for C9 (amended) at a concrete Transfer. -/
theorem C9_witness :
    submit_tx
      { tokenAllowed := fun _ => true, requiredFee := fun _ _ _ => 0,
        accountCreatedAt := fun _ => some 0, now := 1000,
        forcedExitMinimumAccountAge := 100, enforcePubkeyChangeFee := true,
        verify := fun _ _ => .ok (), send := fun _ => .ok () }
      (.Transfer ⟨1, 2, 3⟩) none (some true) = .error .UnsupportedFastProcessing := by
  exact C9_fast_processing_amended.1 _ (.Transfer ⟨1, 2, 3⟩) none rfl
    (fun f hf => by cases hf) rfl

/- ===== Claim C10 ===== -/

/-- C10: in `submit_tx` the fee-token-acceptability check runs for every
fee-carrying transaction before and independently of the fee-sufficiency
comparison: whenever the fee token is not ticker-approved the call is
rejected with InappropriateFeeToken, whatever the fee type and whatever the
enforce-pubkey-change-fee flag, so skipping fee enforcement never skips the
fee-token check. -/
theorem C10_fee_token_check_not_skipped (env : SubmitEnv) (tx : ZkSyncTx)
    (sig : Option Nat) (fp : Option Bool)
    (tx_type : TxFeeTypes) (token address provided_fee : Nat)
    (hclose : tx.is_close = false)
    (hfe : ∀ f, tx = .ForcedExit f → check_forced_exit env f = .ok ())
    (hfast : (fp.getD false && !tx.is_withdraw) = false)
    (hwfast : ∀ w, tx = .Withdraw w → w.fast = false)
    (hinfo : (set_fast tx (fp.getD false)).get_fee_info
        = some (tx_type, token, address, provided_fee))
    (hnotallowed : env.tokenAllowed token = false) :
    submit_tx env tx sig fp = .error .InappropriateFeeToken := by
  rw [submit_tx_stage_eq env tx sig fp hclose hfe hfast hwfast]
  rw [submit_tx_fee_check, hinfo]
  simp [hnotallowed, Except.bind]

/-- Witness for C10: a ChangePubKey transaction with fee enforcement disabled
and a non-approved fee token is still rejected with InappropriateFeeToken. -/
theorem C10_witness :
    submit_tx
      { tokenAllowed := fun _ => false, requiredFee := fun _ _ _ => 0,
        accountCreatedAt := fun _ => some 0, now := 1000,
        forcedExitMinimumAccountAge := 100, enforcePubkeyChangeFee := false,
        verify := fun _ _ => .ok (), send := fun _ => .ok () }
      (.ChangePubKey ⟨1, 2, 3⟩) none none = .error .InappropriateFeeToken := by
  exact C10_fee_token_check_not_skipped _ (.ChangePubKey ⟨1, 2, 3⟩) none none
    .ChangePubKey 2 1 3 rfl (fun f hf => by cases hf) rfl (fun w hw => by cases hw) rfl rfl

/- ===== Claims C3 and C7 (batch submission) ===== -/

theorem is_close_false_of_fee_info (tx : ZkSyncTx) (i : TxFeeTypes × Nat × Nat × Nat)
    (h : tx.get_fee_info = some i) : tx.is_close = false := by
  cases tx <;> simp_all [ZkSyncTx.get_fee_info, ZkSyncTx.is_close]

/-- Concrete batch environment for the C3 counterexample: fee tokens priced
4 USD per unit, ETH priced 1 USD per unit, required batch fee 63 ETH units. -/
def batchEnvC : BatchEnv where
  tokenAllowed := fun _ => true
  tokenPriceUSD := fun t => if t = 0 then 1 else 4
  batchRequiredFee := fun _ => 63
  verifySend := fun txs _ => .ok (txs.map Prod.fst)

/-- C3 counterexample: with member fees [0, 5, 10] in token units priced
x = 4 and required total USD fee r = 63, the claim's acceptance condition
`scale_user_fee_up (5x + 10x) ≥ r` holds (63 ≥ 63), yet the code rejects the
batch as fee-too-low, because the source rejects whenever
`required_total_usd_fee >= scaled_provided_fee_in_usd`, making acceptance
strict (`>`), not non-strict (`≥`). -/
theorem C3_counterexample :
    submit_txs_batch batchEnvC
      [(.Transfer ⟨1, 2, 0⟩, none), (.Transfer ⟨1, 2, 5⟩, none), (.Transfer ⟨2, 2, 10⟩, none)]
      none = .error (.TxAdd .TxBatchFeeTooLow) ∧
    scale_user_fee_up (5 * 4 + 10 * 4) ≥
      (batchEnvC.batchRequiredFee [(.Transfer, 2), (.Transfer, 2)] : ℚ) *
        batchEnvC.tokenPriceUSD 0 := by
  constructor
  · rw [submit_txs_batch]
    rw [if_neg (by simp [ZkSyncTx.is_close])]
    have hloop : batch_fee_loop batchEnvC
        [.Transfer ⟨1, 2, 0⟩, .Transfer ⟨1, 2, 5⟩, .Transfer ⟨2, 2, 10⟩] 0 [] =
        .ok ((60 : ℚ), [(.Transfer, 2), (.Transfer, 2)]) := by
      norm_num [batch_fee_loop, ZkSyncTx.get_fee_info, batchEnvC]
    simp only [List.map_cons, List.map_nil, hloop, Except.bind]
    rw [if_pos (by norm_num [batchEnvC, scale_user_fee_up, one_cent, max_def])]
  · norm_num [scale_user_fee_up, one_cent, batchEnvC, max_def]

/-- C3 (amended): in `submit_txs_batch`, a batch whose three members declare
fees [0, 5, 10] in token units each priced x (USD per unit) passes the fee
check if and only if `scale_user_fee_up (5x + 10x)` is STRICTLY greater than
the required total USD fee r (on the non-strict boundary the batch is
rejected); and a member whose declared fee is zero is never rejected on
fee-token-eligibility grounds, whatever its token (its token-allowed answer is
arbitrary below and never consulted). -/
theorem C3_batch_fee_amended (env : BatchEnv)
    (tA tB tC : ZkSyncTx) (sA sB sC : Option Nat) (eth_sig : Option Nat)
    (tyA tyB tyC : TxFeeTypes) (tokA tokB tokC aA aB aC : Nat) (x : ℚ)
    (hA : tA.get_fee_info = some (tyA, tokA, aA, 0))
    (hB : tB.get_fee_info = some (tyB, tokB, aB, 5))
    (hC : tC.get_fee_info = some (tyC, tokC, aC, 10))
    (hBa : env.tokenAllowed tokB = true)
    (hCa : env.tokenAllowed tokC = true)
    (hBp : env.tokenPriceUSD tokB = x)
    (hCp : env.tokenPriceUSD tokC = x) :
    submit_txs_batch env [(tA, sA), (tB, sB), (tC, sC)] eth_sig =
      if (env.batchRequiredFee [(tyB, aB), (tyC, aC)] : ℚ) * env.tokenPriceUSD 0
          ≥ scale_user_fee_up (15 * x) then
        .error (.TxAdd .TxBatchFeeTooLow)
      else env.verifySend [(tA, sA), (tB, sB), (tC, sC)] eth_sig := by
  have hAc := is_close_false_of_fee_info tA _ hA
  have hBc := is_close_false_of_fee_info tB _ hB
  have hCc := is_close_false_of_fee_info tC _ hC
  rw [submit_txs_batch]
  rw [if_neg (by simp [hAc, hBc, hCc])]
  have hloop : batch_fee_loop env [tA, tB, tC] 0 [] =
      .ok ((0 : ℚ) + 5 * x + 10 * x, [(tyB, aB), (tyC, aC)]) := by
    simp only [batch_fee_loop, hA, hB, hC]
    norm_num [hBa, hBp, hCa, hCp]
  simp only [List.map_cons, List.map_nil, hloop, Except.bind]
  have h15 : (0 : ℚ) + 5 * x + 10 * x = 15 * x := by ring
  rw [h15]

/-- Witness for C3 (amended): with x = 4 and required total USD fee 62 the
scaled declared total 63 strictly exceeds it and the batch passes the fee
check, reaching the verification / forward stage. -/
theorem C3_witness :
    submit_txs_batch { batchEnvC with batchRequiredFee := fun _ => 62 }
      [(.Transfer ⟨1, 2, 0⟩, none), (.Transfer ⟨1, 2, 5⟩, none), (.Transfer ⟨2, 2, 10⟩, none)]
      none = .ok [.Transfer ⟨1, 2, 0⟩, .Transfer ⟨1, 2, 5⟩, .Transfer ⟨2, 2, 10⟩] := by
  rw [C3_batch_fee_amended { batchEnvC with batchRequiredFee := fun _ => 62 }
    (.Transfer ⟨1, 2, 0⟩) (.Transfer ⟨1, 2, 5⟩) (.Transfer ⟨2, 2, 10⟩) none none none none
    .Transfer .Transfer .Transfer 1 1 2 2 2 2 4 rfl rfl rfl rfl rfl rfl rfl]
  rw [if_neg (by norm_num [scale_user_fee_up, one_cent, batchEnvC, max_def])]
  rfl

/-- C7: `submit_txs_batch` rejects every empty batch with an error and
forwards nothing downstream: with no member, the accumulated declared USD fee
is 0, its scaling is 0, and the required fee (a nonnegative amount times a
nonnegative USD price) always satisfies the rejection comparison, so the call
fails with the batch-fee-too-low error before the verification / forward
stage, for every environment (in particular for every downstream behavior). -/
theorem C7_empty_batch_rejected (env : BatchEnv) (eth_sig : Option Nat)
    (hprice : 0 ≤ env.tokenPriceUSD 0) :
    submit_txs_batch env [] eth_sig = .error (.TxAdd .TxBatchFeeTooLow) := by
  have h0 : scale_user_fee_up 0 = 0 := by norm_num [scale_user_fee_up, one_cent]
  rw [submit_txs_batch]
  rw [if_neg (by simp)]
  simp only [List.map_nil, batch_fee_loop, Except.bind, h0]
  rw [if_pos (mul_nonneg (Nat.cast_nonneg _) hprice)]

/-- Witness for C7 at a concrete environment. -/
theorem C7_witness :
    submit_txs_batch batchEnvC [] none = .error (.TxAdd .TxBatchFeeTooLow) := by
  exact C7_empty_batch_rejected batchEnvC none (by norm_num [batchEnvC])

/- ===== Claim C4 (legacy-token verification fallback) ===== -/

/-- C4 counterexample: for a token with the deprecated symbol, when both the
first verification and the retry fail, the error returned is the RETRY
attempt's error (the second `verify` call's result, propagated by the source's
`?` operator), not the original first verification error as the claim
states. -/
theorem C4_counterexample :
    glm_verify_tx_info ⟨"GNT", 18⟩
      (fun s _ => if s = "GNT" then [0] else [1])
      (fun m => if m = [0] then .error (.IncorrectTx "first failure")
                else .error (.IncorrectTx "retry failure")) =
      .error (.IncorrectTx "retry failure") ∧
    SubmitError.IncorrectTx "retry failure" ≠ SubmitError.IncorrectTx "first failure" := by
  constructor
  · rfl
  · decide

/-- C4 (amended): for a Transfer or Withdraw whose resolved token has the
deprecated legacy symbol, when the first signature verification fails the
pipeline retries exactly once with the fixed legacy message template
(hardcoded tGLM symbol, the token's decimals) and returns that retry's
outcome — in particular, if the retry also fails, the retry's error is
returned, not the original one; for every other token symbol no retry occurs
and the original error is returned. The same holds for the batch variant,
keyed on the first resolved member token. -/
theorem C4_glm_retry_amended :
    (∀ (token : GToken) (sign_message : String → Nat → List Nat)
        (verify : List Nat → Except SubmitError Unit) (e : SubmitError),
      verify (sign_message token.symbol token.decimals) = .error e →
      (token.symbol = "GNT" →
        glm_verify_tx_info token sign_message verify =
          verify (sign_message "tGLM" token.decimals)) ∧
      (token.symbol ≠ "GNT" →
        glm_verify_tx_info token sign_message verify = .error e)) ∧
    (∀ (batch_token : Option GToken) (live_messages : List (Option (List Nat)))
        (force_messages : Nat → List (Option (List Nat)))
        (verify : List (Option (List Nat)) → Except SubmitError Unit) (e : SubmitError),
      verify live_messages = .error e →
      (∀ token, batch_token = some token → token.symbol = "GNT" →
        glm_verify_txs_batch_info batch_token live_messages force_messages verify =
          verify (force_messages token.decimals)) ∧
      ((∀ token, batch_token = some token → token.symbol ≠ "GNT") →
        glm_verify_txs_batch_info batch_token live_messages force_messages verify =
          .error e)) := by
  constructor
  · intro token sign_message verify e h
    refine ⟨fun hsym => ?_, fun hsym => ?_⟩
    · simp only [glm_verify_tx_info, h]
      rw [if_pos hsym]
    · simp only [glm_verify_tx_info, h]
      rw [if_neg hsym]
  · intro batch_token live_messages force_messages verify e h
    refine ⟨fun token htok hsym => ?_, fun hsym => ?_⟩
    · simp only [glm_verify_txs_batch_info, h, htok]
      rw [if_pos hsym]
    · cases htok : batch_token with
      | none => simp only [glm_verify_txs_batch_info, h, htok]
      | some token =>
          simp only [glm_verify_txs_batch_info, h, htok]
          rw [if_neg (hsym token htok)]

/-- Witness for C4 (amended): a GNT-token transaction whose first verification
fails and whose legacy-template retry succeeds is accepted. -/
theorem C4_witness :
    glm_verify_tx_info ⟨"GNT", 18⟩ (fun s _ => if s = "GNT" then [0] else [1])
      (fun m => if m = [0] then .error .Internal else .ok ()) = .ok () := by
  have h := (C4_glm_retry_amended.1 ⟨"GNT", 18⟩
    (fun s _ => if s = "GNT" then [0] else [1])
    (fun m => if m = [0] then .error .Internal else .ok ()) .Internal rfl).1 rfl
  rw [h]
  rw [if_neg (by decide)]

/- ===== Claim C5 (gapless in-order proof application) ===== -/

/-- C5: with last verified block 4 and proofs in storage exactly for blocks
5, 6 and 8, after any positive number of timer ticks exactly blocks 5 and 6
have received a Verify operation and the in-memory last-verified counter is 6;
after any number of ticks (including zero) block 8 has never been verified,
since the proof for block 7 is missing. -/
theorem C5_proof_application_gapless :
    (∀ n, 1 ≤ n → (proofTick [5, 6, 8])^[n] (4, []) = (6, [5, 6])) ∧
    (∀ n, 8 ∉ ((proofTick [5, 6, 8])^[n] (4, [])).2) := by
  have h1 : proofTick [5, 6, 8] (4, []) = (6, [5, 6]) := by decide
  have h2 : proofTick [5, 6, 8] (6, [5, 6]) = (6, [5, 6]) := by decide
  have hiter : ∀ n, 1 ≤ n → (proofTick [5, 6, 8])^[n] (4, []) = (6, [5, 6]) := by
    intro n hn
    obtain ⟨m, rfl⟩ := Nat.exists_eq_add_of_le hn
    rw [add_comm, Function.iterate_add_apply, Function.iterate_one, h1]
    exact Function.iterate_fixed h2 m
  refine ⟨hiter, fun n => ?_⟩
  cases n with
  | zero => simp
  | succ m =>
      rw [hiter (m + 1) (Nat.succ_le_succ (Nat.zero_le m))]
      decide

/-- Witness for C5 after three ticks. -/
theorem C5_witness : (proofTick [5, 6, 8])^[3] (4, []) = (6, [5, 6]) := by
  exact C5_proof_application_gapless.1 3 (by norm_num)

/- ===== Claim C6 (atomicity of block-commit persistence) ===== -/

theorem applyStepsAux_fail (steps : List (DBState → DBState)) (i k : Nat) (db : DBState)
    (h1 : i ≤ k) (h2 : k < i + steps.length) :
    applyStepsAux steps i (some k) db = none := by
  induction steps generalizing i db with
  | nil => simp at h2; omega
  | cons s rest ih =>
      rw [applyStepsAux]
      by_cases hk : k = i
      · rw [if_pos (by rw [hk])]
      · rw [if_neg (by simp [hk])]
        exact ih (i + 1) (s db) (by omega) (by simp at h2 ⊢; omega)

theorem applyStepsAux_ok (steps : List (DBState → DBState)) (i : Nat)
    (failAt : Option Nat) (db : DBState)
    (h : ∀ k, failAt = some k → k < i ∨ i + steps.length ≤ k) :
    applyStepsAux steps i failAt db = some (steps.foldl (fun d s => s d) db) := by
  induction steps generalizing i db with
  | nil => rw [applyStepsAux]; rfl
  | cons s rest ih =>
      rw [applyStepsAux, List.foldl_cons]
      have hne : failAt ≠ some i := by
        intro hc
        rcases h i hc with h' | h'
        · exact absurd h' (lt_irrefl i)
        · simp [List.length_cons] at h'
      rw [if_neg hne]
      refine ih (i + 1) (s db) (fun k hk => ?_)
      rcases h k hk with h' | h'
      · exact Or.inl (by omega)
      · exact Or.inr (by simp at h' ⊢; omega)

theorem commit_block_withdrawSteps_eq (block : BlockRec) :
    (block.blockTransactions.filterMap fun op =>
      (match op with
      | .Tx t =>
          if t.success && t.isWithdrawTx then some (pendingWithdrawalStep t.txHash)
          else none
      | .PriorityOp _ => none : Option (DBState → DBState))) =
    (successfulWithdrawHashes block).map pendingWithdrawalStep := by
  have hfun : ∀ op : ExecutedOp,
      (match op with
      | .Tx t =>
          if t.success && t.isWithdrawTx then some (pendingWithdrawalStep t.txHash)
          else none
      | .PriorityOp _ => none : Option (DBState → DBState)) =
      Option.map pendingWithdrawalStep
        (match op with
        | .Tx t => if t.success && t.isWithdrawTx then some t.txHash else none
        | .PriorityOp _ => none : Option Nat) := by
    intro op
    cases op with
    | Tx t =>
        by_cases hc : (t.success && t.isWithdrawTx) = true
        · simp [hc]
        · simp [hc]
    | PriorityOp p => rfl
  rw [successfulWithdrawHashes, List.map_filterMap]
  simp only [hfun]

theorem foldl_pendingWithdrawalSteps (hs : List Nat) (db : DBState) :
    (hs.map pendingWithdrawalStep).foldl (fun d s => s d) db =
    { db with pendingWithdrawals := db.pendingWithdrawals ++ hs } := by
  induction hs generalizing db with
  | nil => simp
  | cons h rest ih =>
      simp only [List.map_cons, List.foldl_cons]
      rw [ih]
      simp [pendingWithdrawalStep, List.append_assoc]

/-- C6: block-commit persistence is atomic with respect to storage. For every
Block commit request, if a storage call fails at any point up to and including
the final transaction commit, then none of the storage effects
(pending-withdrawal records, account-state deltas, the Commit operation
record) become visible to a subsequent read; without failure all of them
become visible; the visible state is always one of exactly these two. -/
theorem C6_commit_block_atomic (db : DBState) (block : BlockRec)
    (upd : AppliedUpdatesReq) :
    (∀ k, k ≤ (commit_block_steps block upd).length →
      commit_block_run db block upd (some k) = db) ∧
    commit_block_run db block upd none = commit_block_pure db block upd ∧
    (∀ failAt, commit_block_run db block upd failAt = db ∨
      commit_block_run db block upd failAt = commit_block_pure db block upd) ∧
    commit_block_pure db block upd =
      { pendingWithdrawals := db.pendingWithdrawals ++ successfulWithdrawHashes block,
        stateUpdates := db.stateUpdates ++
          [⟨block.blockNumber, upd.firstUpdateOrderId, upd.accountUpdates⟩],
        operations := db.operations ++ [⟨ActionRec.Commit, block.blockNumber⟩] } := by
  have hfail : ∀ k, k ≤ (commit_block_steps block upd).length →
      commit_block_run db block upd (some k) = db := by
    intro k hk
    rcases Nat.lt_or_ge k (commit_block_steps block upd).length with hlt | hge
    · rw [commit_block_run, runTransaction,
        applyStepsAux_fail _ 0 k db (Nat.zero_le k) (by omega)]
    · have hkeq : k = (commit_block_steps block upd).length := by omega
      rw [commit_block_run, runTransaction,
        applyStepsAux_ok _ 0 (some k) db (fun k2 hk2 => by
          injection hk2 with hk2; omega)]
      simp [hkeq]
  have hnone : commit_block_run db block upd none = commit_block_pure db block upd := by
    rw [commit_block_run, runTransaction,
      applyStepsAux_ok _ 0 none db (fun k2 hk2 => by cases hk2)]
    simp [commit_block_pure]
  have hdich : ∀ failAt, commit_block_run db block upd failAt = db ∨
      commit_block_run db block upd failAt = commit_block_pure db block upd := by
    intro failAt
    cases failAt with
    | none => exact Or.inr hnone
    | some k =>
        by_cases hk : k ≤ (commit_block_steps block upd).length
        · exact Or.inl (hfail k hk)
        · refine Or.inr ?_
          rw [commit_block_run, runTransaction,
            applyStepsAux_ok _ 0 (some k) db (fun k2 hk2 => by
              injection hk2 with hk2; omega)]
          have hne : k ≠ (commit_block_steps block upd).length := by omega
          simp [commit_block_pure, hne]
  have hpure : commit_block_pure db block upd =
      { pendingWithdrawals := db.pendingWithdrawals ++ successfulWithdrawHashes block,
        stateUpdates := db.stateUpdates ++
          [⟨block.blockNumber, upd.firstUpdateOrderId, upd.accountUpdates⟩],
        operations := db.operations ++ [⟨ActionRec.Commit, block.blockNumber⟩] } := by
    rw [commit_block_pure, commit_block_steps, List.foldl_append,
      commit_block_withdrawSteps_eq, foldl_pendingWithdrawalSteps]
    simp [stateUpdateStep, commitOpStep]
  exact ⟨hfail, hnone, hdich, hpure⟩

/-- Witness for C6: a failure injected right after the withdrawal-marking step
of a one-withdrawal block leaves the storage state unchanged. -/
theorem C6_witness :
    commit_block_run ⟨[], [], []⟩ ⟨7, [.Tx ⟨11, true, true⟩]⟩ ⟨[3], 42⟩ (some 1) =
      ⟨[], [], []⟩ := by
  exact (C6_commit_block_atomic ⟨[], [], []⟩ ⟨7, [.Tx ⟨11, true, true⟩]⟩ ⟨[3], 42⟩).1 1
    (by decide)
